import Mathlib

/-!
Shallow embedding of the predictive-physics core of the snooker game
repository: the ball-trail trajectory predictor (BallTrailPrediction.js)
and the transient obstacle field (DynamicObstacles.js).

Conventions of the embedding:
* JavaScript float arithmetic is modelled over ℚ where every operation of
  the source is field arithmetic, and over ℝ where the source uses
  transcendental functions (atan2 / cos / sin / sqrt).
* p5 vectors become pairs; p5 `dist` becomes the square root of the sum of
  squared differences; comparisons of a distance against a non-negative
  constant c are modelled as comparisons of the squared distance against
  c^2 wherever that keeps the development in ℚ (both sides non-negative,
  so the two tests are equivalent).
* Stateful methods become functions from the state they read to the state
  they write; the physics-engine glue excluded by the specification
  (Matter.js bodies, World.add / World.remove, rendering) is not modelled.
-/

namespace Snooker

/-- Table boundary rectangle as returned by Table.getBoundaries. -/
structure Boundaries where
  left : ℚ
  right : ℚ
  top : ℚ
  bottom : ℚ
deriving DecidableEq

/-- One sample of the prediction trail: the object pushed by
calculatePrediction, with the recorded speed kept as its square (the
source stores velocity.mag(); `Sample.speed` below recovers it). -/
structure Sample where
  x : ℚ
  y : ℚ
  bounce : ℕ
  speedSq : ℚ
deriving DecidableEq

/-- Recorded speed of a sample, the square root of the stored squared
magnitude; this is the `speed` field the source writes. -/
noncomputable def Sample.speed (s : Sample) : ℝ :=
  Real.sqrt (s.speedSq : ℝ)

/-- Componentwise vector addition (p5.Vector.add). -/
def vadd (a b : ℚ × ℚ) : ℚ × ℚ := (a.1 + b.1, a.2 + b.2)

/-- Scalar multiple of a vector (p5.Vector.mult / velocity.mult). -/
def vsmul (c : ℚ) (v : ℚ × ℚ) : ℚ × ℚ := (c * v.1, c * v.2)

/-- Dot product (p5.Vector.dot). -/
def vdot (a b : ℚ × ℚ) : ℚ := a.1 * b.1 + a.2 * b.2

/-- Squared magnitude of a vector; velocity.mag() is its square root, and
every comparison the prediction loop makes against mag() is against a
positive constant, so the squared form is an equivalent test. -/
def magSq (v : ℚ × ℚ) : ℚ := v.1 * v.1 + v.2 * v.2

/-- BallTrailPrediction.reflectVelocity: reflected = incident - 2 * (incident · normal) * normal. -/
def reflectVelocity (incident normal : ℚ × ℚ) : ℚ × ℚ :=
  let dotProduct := vdot incident normal
  (incident.1 - 2 * dotProduct * normal.1, incident.2 - 2 * dotProduct * normal.2)

/-- Inset left boundary used by checkCushionCollision: boundaries.left +
cushionThickness (12) + ballRadius. -/
def leftBound (bd : Boundaries) (ballRadius : ℚ) : ℚ := bd.left + 12 + ballRadius

/-- Inset right boundary: boundaries.right - cushionThickness - ballRadius. -/
def rightBound (bd : Boundaries) (ballRadius : ℚ) : ℚ := bd.right - 12 - ballRadius

/-- Inset top boundary: boundaries.top + cushionThickness + ballRadius. -/
def topBound (bd : Boundaries) (ballRadius : ℚ) : ℚ := bd.top + 12 + ballRadius

/-- Inset bottom boundary: boundaries.bottom - cushionThickness - ballRadius. -/
def bottomBound (bd : Boundaries) (ballRadius : ℚ) : ℚ := bd.bottom - 12 - ballRadius

/-- Result object of checkCushionCollision. -/
structure Collision where
  hit : Bool
  hitPoint : ℚ × ℚ
  normal : ℚ × ℚ
deriving DecidableEq

/-- BallTrailPrediction.checkCushionCollision, translated branch for
branch: an else-if chain testing left, right, top, bottom in that order;
the collision object starts as {hit false, hitPoint nextPos, normal 0}. -/
def checkCushionCollision (currentPos nextPos : ℚ × ℚ) (bd : Boundaries)
    (ballRadius : ℚ) : Collision :=
  if nextPos.1 ≤ leftBound bd ballRadius ∧ leftBound bd ballRadius < currentPos.1 then
    ⟨true, (leftBound bd ballRadius, nextPos.2), (1, 0)⟩
  else if rightBound bd ballRadius ≤ nextPos.1 ∧ currentPos.1 < rightBound bd ballRadius then
    ⟨true, (rightBound bd ballRadius, nextPos.2), (-1, 0)⟩
  else if nextPos.2 ≤ topBound bd ballRadius ∧ topBound bd ballRadius < currentPos.2 then
    ⟨true, (nextPos.1, topBound bd ballRadius), (0, 1)⟩
  else if bottomBound bd ballRadius ≤ nextPos.2 ∧ currentPos.2 < bottomBound bd ballRadius then
    ⟨true, (nextPos.1, bottomBound bd ballRadius), (0, -1)⟩
  else
    ⟨false, nextPos, (0, 0)⟩

/-- Left-cushion crossing test of checkCushionCollision: candidate at or
beyond the inset boundary, previous position strictly inside it. -/
def crossesLeft (currentPos nextPos : ℚ × ℚ) (bd : Boundaries) (r : ℚ) : Prop :=
  nextPos.1 ≤ leftBound bd r ∧ leftBound bd r < currentPos.1

/-- Right-cushion crossing test of checkCushionCollision. -/
def crossesRight (currentPos nextPos : ℚ × ℚ) (bd : Boundaries) (r : ℚ) : Prop :=
  rightBound bd r ≤ nextPos.1 ∧ currentPos.1 < rightBound bd r

/-- Top-cushion crossing test of checkCushionCollision. -/
def crossesTop (currentPos nextPos : ℚ × ℚ) (bd : Boundaries) (r : ℚ) : Prop :=
  nextPos.2 ≤ topBound bd r ∧ topBound bd r < currentPos.2

/-- Bottom-cushion crossing test of checkCushionCollision. -/
def crossesBottom (currentPos nextPos : ℚ × ℚ) (bd : Boundaries) (r : ℚ) : Prop :=
  bottomBound bd r ≤ nextPos.2 ∧ currentPos.2 < bottomBound bd r

/-- Loop body of BallTrailPrediction.calculatePrediction, by recursion on
the remaining step budget (maxPredictionSteps = 300 at the entry point).
Constants of the source: frictionCoefficient 0.985 = 197/200,
predictionStepSize 2, cushionRestitution 0.75 = 3/4, maxBounces 5,
speedThreshold 0.3 (compared squared: mag < 0.3 iff magSq < 9/100).
Each iteration applies friction, advances by stepSize * velocity, resolves
at most one cushion crossing (clamping to the hit point, reflecting and
scaling the velocity, counting the bounce), pushes a sample, and stops
early when the speed falls below the threshold. -/
def predLoop (bd : Boundaries) (ballRadius : ℚ) :
    ℕ → ℚ × ℚ → ℚ × ℚ → ℕ → List Sample
  | 0, _, _, _ => []
  | fuel + 1, currentPos, velocity, bounces =>
    if 5 ≤ bounces then []
    else
      let v1 := vsmul (197 / 200) velocity
      let nextPos := vadd currentPos (vsmul 2 v1)
      let c := checkCushionCollision currentPos nextPos bd ballRadius
      let next2 := if c.hit then c.hitPoint else nextPos
      let v2 := if c.hit then vsmul (3 / 4) (reflectVelocity v1 c.normal) else v1
      let k2 := if c.hit then bounces + 1 else bounces
      let s : Sample := ⟨next2.1, next2.2, k2, magSq v2⟩
      if magSq v2 < 9 / 100 then [s]
      else s :: predLoop bd ballRadius fuel next2 v2 k2

/-- BallTrailPrediction.calculatePrediction as a function from its inputs
to the predictionTrail it stores.  The guard mirrors the early return
(`!enabled || !cueBall.body || !cue.isVisible()` leaves an empty trail);
otherwise the trail is rebuilt from scratch with bounce count 0.  The
launch velocity (derived in the source from the cue angle and power) is
taken as an input, matching the specification's predict contract. -/
def calculatePrediction (enabled hasBody cueVisible : Bool)
    (startPos velocity : ℚ × ℚ) (bd : Boundaries) (ballRadius : ℚ) : List Sample :=
  if !enabled || !hasBody || !cueVisible then []
  else predLoop bd ballRadius 300 startPos velocity 0

/-! DynamicObstacles: lifecycle phase machine, safe-spawn search, container
update, and the per-ball force-application pass. -/

/-- Lifecycle phase of an obstacle (the source's phase strings). -/
inductive ObstaclePhase where
  | warning
  | active
  | fading
deriving DecidableEq

/-- DynamicObstacles.updateObstaclePhase as a function of the obstacle's
age and current phase.  Source thresholds: warningTime 120, warningTime +
activeTime 420, maxAge 480.  Ages beyond maxAge fall through the chain and
leave the phase unchanged (the obstacle is removed by updateObstacles). -/
def updateObstaclePhase (age : ℕ) (phase : ObstaclePhase) : ObstaclePhase :=
  if age ≤ 120 then .warning
  else if age ≤ 420 then .active
  else if age ≤ 480 then .fading
  else phase

/-- One update tick applied to a single obstacle's (age, phase) pair:
updateObstacles increments the age, calls updateObstaclePhase, and removes
the obstacle once age exceeds maxAge (480); removal is `none`. -/
def obstacleTick (s : ℕ × ObstaclePhase) : Option (ℕ × ObstaclePhase) :=
  let age := s.1 + 1
  let phase := updateObstaclePhase age s.2
  if 480 < age then none else some (age, phase)

/-- The (age, phase) state of one obstacle after n update ticks from its
spawn state (age 0, phase warning, as built by spawnRandomObstacle);
`none` once the obstacle has been removed. -/
def obstacleRun : ℕ → Option (ℕ × ObstaclePhase)
  | 0 => some (0, .warning)
  | n + 1 => (obstacleRun n).bind obstacleTick

/-- Phase of the obstacle that is n ticks old, `none` once removed. -/
def observedPhase (n : ℕ) : Option ObstaclePhase :=
  (obstacleRun n).map (fun s => s.2)

/-- Pure phase of an age, for an obstacle that has aged normally. -/
def phaseOfAge (age : ℕ) : ObstaclePhase :=
  updateObstaclePhase age .warning

/-- Position of a lifecycle stage in the warning, active, fading, removed
progression; used to state linearity of the phase machine. -/
def lifeRank : Option ObstaclePhase → ℕ
  | some .warning => 0
  | some .active => 1
  | some .fading => 2
  | none => 3

/-- Squared distance between two points; p5's dist is its square root, and
every distance test of the obstacle system compares dist against a
positive constant, so the squared comparison is equivalent. -/
def distSq (x1 y1 x2 y2 : ℚ) : ℚ := (x2 - x1) ^ 2 + (y2 - y1) ^ 2

/-- Environment read by findSafeSpawnPosition: table boundaries, pocket
centers, the D-zone membership test, and the positions of every tracked
ball that has a physics body (cue, reds, coloreds flattened). -/
structure SpawnEnv where
  bd : Boundaries
  pockets : List (ℚ × ℚ)
  inDZone : ℚ → ℚ → Bool
  ballPositions : List (ℚ × ℚ)

/-- One candidate draw of findSafeSpawnPosition.  p5's random(lo, hi) is
lo + u * (hi - lo) for a unit sample u in [0,1); the spawn bounds are
boundaries inset by 80 on each side. -/
def spawnCandidate (bd : Boundaries) (u : ℚ × ℚ) : ℚ × ℚ :=
  (bd.left + 80 + u.1 * ((bd.right - 80) - (bd.left + 80)),
   bd.top + 80 + u.2 * ((bd.bottom - 80) - (bd.top + 80)))

/-- Acceptance test of one candidate in findSafeSpawnPosition: not in the
D zone, at least 70 from every pocket, at least 80 from every ball with a
body, at least 100 from every existing obstacle (distances squared). -/
def isValidSpawn (env : SpawnEnv) (obstaclePositions : List (ℚ × ℚ))
    (x y : ℚ) : Bool :=
  !env.inDZone x y
    && env.pockets.all (fun pk => !decide (distSq x y pk.1 pk.2 < 4900))
    && env.ballPositions.all (fun bp => !decide (distSq x y bp.1 bp.2 < 6400))
    && obstaclePositions.all (fun op => !decide (distSq x y op.1 op.2 < 10000))

/-- Bounded retry loop of findSafeSpawnPosition: fuel counts the attempts
still allowed (attempts < maxAttempts with maxAttempts = 50), i indexes
the random draws consumed so far. -/
def spawnGo (env : SpawnEnv) (obstaclePositions : List (ℚ × ℚ))
    (rand : ℕ → ℚ × ℚ) : ℕ → ℕ → Option (ℚ × ℚ)
  | 0, _ => none
  | fuel + 1, i =>
    let c := spawnCandidate env.bd (rand i)
    if isValidSpawn env obstaclePositions c.1 c.2 then some c
    else spawnGo env obstaclePositions rand fuel (i + 1)

/-- DynamicObstacles.findSafeSpawnPosition with an injectable stream of
unit random samples: up to 50 attempts, `none` on exhaustion. -/
def findSafeSpawnPosition (env : SpawnEnv) (obstaclePositions : List (ℚ × ℚ))
    (rand : ℕ → ℚ × ℚ) : Option (ℚ × ℚ) :=
  spawnGo env obstaclePositions rand 50 0

/-- One obstacle of the container; the Matter.js body and the `active`
flag (physics-engine glue excluded by the specification) are not
modelled.  rotationSpeed is the constant 0.08 = 2/25. -/
structure Obst where
  x : ℚ
  y : ℚ
  age : ℕ
  phase : ObstaclePhase
  rotationAngle : ℚ
deriving DecidableEq

/-- State of the DynamicObstacles container relevant to spawning and
lifecycle: the obstacle list and the spawn timer. -/
structure ObstSystem where
  obstacles : List Obst
  spawnTimer : ℕ
deriving DecidableEq

/-- An obstacle center lying at least 80 units inside every table
boundary (the candidate range of findSafeSpawnPosition). -/
def obstInBounds (bd : Boundaries) (o : Obst) : Prop :=
  bd.left + 80 ≤ o.x ∧ o.x ≤ bd.right - 80 ∧ bd.top + 80 ≤ o.y ∧ o.y ≤ bd.bottom - 80

/-- DynamicObstacles.spawnRandomObstacle: append a fresh obstacle (age 0,
phase warning, rotationAngle 0) at the found position, or leave the list
unchanged when the search fails. -/
def spawnRandomObstacle (env : SpawnEnv) (rand : ℕ → ℚ × ℚ)
    (obstacles : List Obst) : List Obst :=
  match findSafeSpawnPosition env (obstacles.map fun o => (o.x, o.y)) rand with
  | none => obstacles
  | some p => obstacles ++ [⟨p.1, p.2, 0, .warning, 0⟩]

/-- Per-obstacle body of DynamicObstacles.updateObstacles: increment age,
update the phase, advance the rotation; the center coordinates are not
touched.  Ball interactions mutate only balls, never the obstacle. -/
def tickObstacle (o : Obst) : Obst :=
  { x := o.x, y := o.y, age := o.age + 1,
    phase := updateObstaclePhase (o.age + 1) o.phase,
    rotationAngle := o.rotationAngle + 2 / 25 }

/-- DynamicObstacles.updateObstacles on the obstacle list: each obstacle
is ticked and the ones whose age exceeds maxAge (480) are removed.  The
source iterates in reverse index order and splices, which removes exactly
the same elements as this filter. -/
def updateObstacles (obstacles : List Obst) : List Obst :=
  (obstacles.map tickObstacle).filter (fun o => !decide (480 < o.age))

/-- DynamicObstacles.update restricted to the state it mutates (timer and
obstacle list): advance the timer; when it has reached spawnRate (420)
with fewer than maxObstacles (2) obstacles and no ball moving, attempt a
spawn and reset the timer (even if the spawn search failed); then run
updateObstacles.  Disabled systems return unchanged. -/
def update (env : SpawnEnv) (rand : ℕ → ℚ × ℚ) (enabled ballsMoving : Bool)
    (s : ObstSystem) : ObstSystem :=
  if enabled = false then s
  else
    let t := s.spawnTimer + 1
    if 420 ≤ t ∧ s.obstacles.length < 2 ∧ ballsMoving = false then
      { obstacles := updateObstacles (spawnRandomObstacle env rand s.obstacles),
        spawnTimer := 0 }
    else
      { obstacles := updateObstacles s.obstacles, spawnTimer := t }

/-! The force-application pass of handleBallInteractions uses atan2, cos,
sin and sqrt, so it is embedded over ℝ. -/

/-- p5 dist: Euclidean distance between (x1, y1) and (x2, y2). -/
noncomputable def distF (x1 y1 x2 y2 : ℝ) : ℝ :=
  Real.sqrt ((x2 - x1) ^ 2 + (y2 - y1) ^ 2)

/-- JavaScript Math.atan2(y, x): the argument of the complex number
x + i y, in (-pi, pi], with atan2(0, 0) = 0. -/
noncomputable def atan2R (y x : ℝ) : ℝ := Complex.arg ⟨x, y⟩

/-- p5 map(value, a, b, c, d) without clamping: linear interpolation. -/
noncomputable def mapRange (v a b c d : ℝ) : ℝ := c + (v - a) * (d - c) / (b - a)

/-- DynamicObstacles.pushBallAway, velocity part (the position is never
touched): push angle away from the obstacle plus a spin influence, force
interpolated from maxPushForce 6 at distance 5 down to minPushForce 1.5
at interactionRadius 60, blended into the current velocity at 0.3, then
capped at speed 10. -/
noncomputable def pushBallAwayVel (ox oy rot bx bY vx vy d : ℝ) : ℝ × ℝ :=
  let pushAngle := atan2R (bY - oy) (bx - ox) + Real.sin (rot * 2) * 0.2
  let forceMagnitude := mapRange d 5 60 6 1.5
  let velocityX := Real.cos pushAngle * forceMagnitude
  let velocityY := Real.sin pushAngle * forceMagnitude
  let newVelX := vx + velocityX * 0.3
  let newVelY := vy + velocityY * 0.3
  let currentSpeed := Real.sqrt (newVelX ^ 2 + newVelY ^ 2)
  if 10 < currentSpeed then (newVelX / currentSpeed * 10, newVelY / currentSpeed * 10)
  else (newVelX, newVelY)

/-- DynamicObstacles.emergencyPushBall: teleport the ball to escape
distance 40 from the obstacle center along the repulsion direction and
give it a small outward velocity (magnitude 3); returns (position,
velocity). -/
noncomputable def emergencyPushBall (ox oy bx bY : ℝ) : (ℝ × ℝ) × (ℝ × ℝ) :=
  let escapeAngle := atan2R (bY - oy) (bx - ox)
  ((ox + Real.cos escapeAngle * 40, oy + Real.sin escapeAngle * 40),
   (Real.cos escapeAngle * 3, Real.sin escapeAngle * 3))

/-- Per-ball body of DynamicObstacles.handleBallInteractions: compute the
distance once; if 5 < d < 60 apply the gradual push (velocity only); if
0 < d < 25 the emergency teleport replaces position and velocity (it
reads the ball position, which the gradual push did not change).  Returns
the ball's (position, velocity) after the pass. -/
noncomputable def interactStep (ox oy rot bx bY vx vy : ℝ) : (ℝ × ℝ) × (ℝ × ℝ) :=
  let d := distF ox oy bx bY
  let v1 := if d < 60 ∧ 5 < d then pushBallAwayVel ox oy rot bx bY vx vy d else (vx, vy)
  if d < 25 ∧ 0 < d then emergencyPushBall ox oy bx bY
  else ((bx, bY), v1)

/-- DynamicObstacles.handleBallInteractions over the gathered ball list
(each ball as (position, velocity)); each ball is processed independently
against the obstacle center and rotation. -/
noncomputable def handleBallInteractions (ox oy rot : ℝ)
    (balls : List ((ℝ × ℝ) × (ℝ × ℝ))) : List ((ℝ × ℝ) × (ℝ × ℝ)) :=
  balls.map (fun b => interactStep ox oy rot b.1.1 b.1.2 b.2.1 b.2.2)

/-! Theorems. -/

/-- Helper: the squared magnitude is non-negative. -/
theorem magSq_nonneg (v : ℚ × ℚ) : 0 ≤ magSq v := by
  have h1 : 0 ≤ v.1 * v.1 := mul_self_nonneg _
  have h2 : 0 ≤ v.2 * v.2 := mul_self_nonneg _
  simpa [magSq] using add_nonneg h1 h2

/-- Helper: squared magnitude of a scalar multiple. -/
theorem magSq_vsmul (c : ℚ) (v : ℚ × ℚ) : magSq (vsmul c v) = c ^ 2 * magSq v := by
  simp only [magSq, vsmul]
  ring

/-- Helper: a collision that hits has one of the four outward unit normals. -/
theorem collision_normal_cases (currentPos nextPos : ℚ × ℚ) (bd : Boundaries) (r : ℚ)
    (h : (checkCushionCollision currentPos nextPos bd r).hit = true) :
    (checkCushionCollision currentPos nextPos bd r).normal = (1, 0) ∨
    (checkCushionCollision currentPos nextPos bd r).normal = (-1, 0) ∨
    (checkCushionCollision currentPos nextPos bd r).normal = (0, 1) ∨
    (checkCushionCollision currentPos nextPos bd r).normal = (0, -1) := by
  simp only [checkCushionCollision] at h ⊢
  split_ifs at h ⊢ <;> simp_all

/-- Helper: reflection about any of the four axis unit normals preserves
the squared magnitude. -/
theorem magSq_reflect_axis (v n : ℚ × ℚ)
    (hn : n = (1, 0) ∨ n = (-1, 0) ∨ n = (0, 1) ∨ n = (0, -1)) :
    magSq (reflectVelocity v n) = magSq v := by
  rcases hn with h | h | h | h <;> subst h <;>
    simp only [reflectVelocity, vdot, magSq] <;> ring

/-- C1: in every prediction step, checkCushionCollision reports a hit
exactly when one of the four axis tests holds (previous position strictly
inside the inset boundary, candidate at or beyond it); the else-if chain
resolves the first matching test in the order left, right, top, bottom,
so at most one axis is resolved; and the collision point replaces only
the crossed coordinate with the inset boundary value, taking the other
coordinate from the candidate position. -/
theorem cushion_collision_first_match (currentPos nextPos : ℚ × ℚ)
    (bd : Boundaries) (r : ℚ) :
    ((checkCushionCollision currentPos nextPos bd r).hit = true ↔
      (crossesLeft currentPos nextPos bd r ∨ crossesRight currentPos nextPos bd r ∨
       crossesTop currentPos nextPos bd r ∨ crossesBottom currentPos nextPos bd r))
  ∧ (crossesLeft currentPos nextPos bd r →
      checkCushionCollision currentPos nextPos bd r =
        ⟨true, (leftBound bd r, nextPos.2), (1, 0)⟩)
  ∧ (¬ crossesLeft currentPos nextPos bd r → crossesRight currentPos nextPos bd r →
      checkCushionCollision currentPos nextPos bd r =
        ⟨true, (rightBound bd r, nextPos.2), (-1, 0)⟩)
  ∧ (¬ crossesLeft currentPos nextPos bd r → ¬ crossesRight currentPos nextPos bd r →
      crossesTop currentPos nextPos bd r →
      checkCushionCollision currentPos nextPos bd r =
        ⟨true, (nextPos.1, topBound bd r), (0, 1)⟩)
  ∧ (¬ crossesLeft currentPos nextPos bd r → ¬ crossesRight currentPos nextPos bd r →
      ¬ crossesTop currentPos nextPos bd r → crossesBottom currentPos nextPos bd r →
      checkCushionCollision currentPos nextPos bd r =
        ⟨true, (nextPos.1, bottomBound bd r), (0, -1)⟩)
  ∧ (¬ crossesLeft currentPos nextPos bd r → ¬ crossesRight currentPos nextPos bd r →
      ¬ crossesTop currentPos nextPos bd r → ¬ crossesBottom currentPos nextPos bd r →
      checkCushionCollision currentPos nextPos bd r = ⟨false, nextPos, (0, 0)⟩) := by
  simp only [checkCushionCollision, crossesLeft, crossesRight, crossesTop, crossesBottom]
  split_ifs with h1 h2 h3 h4 <;> simp_all

/-- C1 witness: a concrete left-cushion crossing is detected and resolved
to the inset left boundary. -/
theorem cushion_collision_first_match_witness :
    checkCushionCollision (30, 150) (10, 150) ⟨0, 400, 0, 300⟩ 7 =
      ⟨true, (leftBound ⟨0, 400, 0, 300⟩ 7, 150), (1, 0)⟩ :=
  (cushion_collision_first_match (30, 150) (10, 150) ⟨0, 400, 0, 300⟩ 7).2.1
    (by constructor <;> norm_num [leftBound])

/-- Helper: with zero launch velocity the prediction loop emits exactly
one sample, at the start position, with no bounce and zero speed. -/
theorem predLoop_zero_vel (bd : Boundaries) (r : ℚ) (n : ℕ) (pos : ℚ × ℚ) :
    predLoop bd r (n + 1) pos (0, 0) 0 = [⟨pos.1, pos.2, 0, 0⟩] := by
  have e1 : vsmul (197 / 200 : ℚ) (0, 0) = (0, 0) := by simp [vsmul]
  have e2 : vadd pos (vsmul 2 (0, 0)) = pos := by simp [vadd, vsmul]
  have hcc : checkCushionCollision pos pos bd r = ⟨false, pos, (0, 0)⟩ := by
    have n1 : ¬(pos.1 ≤ leftBound bd r ∧ leftBound bd r < pos.1) := by
      rintro ⟨ha, hb⟩; exact absurd hb (not_lt.mpr ha)
    have n2 : ¬(rightBound bd r ≤ pos.1 ∧ pos.1 < rightBound bd r) := by
      rintro ⟨ha, hb⟩; exact absurd hb (not_lt.mpr ha)
    have n3 : ¬(pos.2 ≤ topBound bd r ∧ topBound bd r < pos.2) := by
      rintro ⟨ha, hb⟩; exact absurd hb (not_lt.mpr ha)
    have n4 : ¬(bottomBound bd r ≤ pos.2 ∧ pos.2 < bottomBound bd r) := by
      rintro ⟨ha, hb⟩; exact absurd hb (not_lt.mpr ha)
    simp only [checkCushionCollision]
    rw [if_neg n1, if_neg n2, if_neg n3, if_neg n4]
  simp only [predLoop, e1, e2, hcc]
  norm_num [magSq]

/-- C4: with a zero-magnitude launch velocity, calculatePrediction yields
a trail of length at most 1 whose every sample records zero bounces, for
any start position, boundaries, and guard flags. -/
theorem zero_velocity_prediction (enabled hasBody cueVisible : Bool)
    (startPos : ℚ × ℚ) (bd : Boundaries) (r : ℚ) :
    (calculatePrediction enabled hasBody cueVisible startPos (0, 0) bd r).length ≤ 1
  ∧ ∀ s ∈ calculatePrediction enabled hasBody cueVisible startPos (0, 0) bd r,
      s.bounce = 0 := by
  unfold calculatePrediction
  split_ifs with h
  · simp
  · rw [show (300 : ℕ) = 299 + 1 by norm_num, predLoop_zero_vel]
    simp

/-- C4 witness: a concrete zero-velocity prediction has at most one
sample. -/
theorem zero_velocity_prediction_witness :
    (calculatePrediction true true true (200, 150) (0, 0) ⟨0, 400, 0, 300⟩ 7).length
      ≤ 1 :=
  (zero_velocity_prediction true true true (200, 150) ⟨0, 400, 0, 300⟩ 7).1

/-- Helper: one friction application cannot increase the squared speed. -/
theorem friction_magSq_le (vel : ℚ × ℚ) :
    magSq (vsmul (197 / 200) vel) ≤ magSq vel := by
  rw [magSq_vsmul]
  nlinarith [magSq_nonneg vel]

/-- Helper: a cushion bounce (reflection then restitution) cannot
increase the squared speed. -/
theorem bounce_magSq_le (a b : ℚ × ℚ) (bd : Boundaries) (r : ℚ) (v : ℚ × ℚ)
    (h : (checkCushionCollision a b bd r).hit = true) :
    magSq (vsmul (3 / 4) (reflectVelocity v (checkCushionCollision a b bd r).normal))
      ≤ magSq v := by
  rw [magSq_vsmul, magSq_reflect_axis v _ (collision_normal_cases a b bd r h)]
  nlinarith [magSq_nonneg v]

/-- Helper: the trail produced by the loop has at most as many samples as
the remaining step budget. -/
theorem predLoop_length_le (bd : Boundaries) (r : ℚ) :
    ∀ fuel pos vel k, (predLoop bd r fuel pos vel k).length ≤ fuel := by
  intro fuel
  induction fuel with
  | zero => intro pos vel k; simp [predLoop]
  | succ n ih =>
    intro pos vel k
    simp only [predLoop]
    split_ifs
    · simp
    · simp
    · simp only [List.length_cons]
      exact Nat.succ_le_succ (ih _ _ _)
    · simp
    · simp only [List.length_cons]
      exact Nat.succ_le_succ (ih _ _ _)

/-- Helper: every sample of the loop records a bounce count between the
entry count and maxBounces (5). -/
theorem predLoop_bounce_bounds (bd : Boundaries) (r : ℚ) :
    ∀ fuel pos vel k s, s ∈ predLoop bd r fuel pos vel k →
      k ≤ s.bounce ∧ s.bounce ≤ 5 := by
  intro fuel
  induction fuel with
  | zero => intro pos vel k s hs; simp [predLoop] at hs
  | succ n ih =>
    intro pos vel k s hs
    simp only [predLoop] at hs
    split_ifs at hs with hb hhit hslow
    · simp at hs
    · simp at hs
      subst hs
      simp only
      omega
    · simp at hs
      rcases hs with hs | hs
      · subst hs
        simp only
        omega
      · have := ih _ _ _ _ hs
        omega
    · simp at hs
      subst hs
      simp only
      omega
    · simp at hs
      rcases hs with hs | hs
      · subst hs
        simp only
        omega
      · have := ih _ _ _ _ hs
        omega

/-- Helper: the bounce counts along the trail are non-decreasing. -/
theorem predLoop_chain_bounce (bd : Boundaries) (r : ℚ) :
    ∀ fuel pos vel k,
      List.Chain' (fun a b => a.bounce ≤ b.bounce) (predLoop bd r fuel pos vel k) := by
  intro fuel
  induction fuel with
  | zero => intro pos vel k; simp [predLoop]
  | succ n ih =>
    intro pos vel k
    simp only [predLoop]
    split_ifs with hb hhit hslow
    · simp
    · simp
    · refine List.chain'_cons'.mpr ⟨?_, ih _ _ _⟩
      intro y hy
      have hmem := List.mem_of_mem_head? hy
      have := (predLoop_bounce_bounds bd r n _ _ _ _ hmem).1
      simpa using this
    · simp
    · refine List.chain'_cons'.mpr ⟨?_, ih _ _ _⟩
      intro y hy
      have hmem := List.mem_of_mem_head? hy
      have := (predLoop_bounce_bounds bd r n _ _ _ _ hmem).1
      simpa using this

/-- Helper: every sample of the loop records a squared speed no larger
than the squared magnitude of the entry velocity. -/
theorem predLoop_speed_mem (bd : Boundaries) (r : ℚ) :
    ∀ fuel pos vel k s, s ∈ predLoop bd r fuel pos vel k →
      s.speedSq ≤ magSq vel := by
  intro fuel
  induction fuel with
  | zero => intro pos vel k s hs; simp [predLoop] at hs
  | succ n ih =>
    intro pos vel k s hs
    simp only [predLoop] at hs
    split_ifs at hs with hb hhit hslow
    · simp at hs
    · simp at hs
      subst hs
      exact le_trans (bounce_magSq_le _ _ bd r _ hhit) (friction_magSq_le vel)
    · simp at hs
      rcases hs with hs | hs
      · subst hs
        exact le_trans (bounce_magSq_le _ _ bd r _ hhit) (friction_magSq_le vel)
      · exact le_trans (ih _ _ _ _ hs)
          (le_trans (bounce_magSq_le _ _ bd r _ hhit) (friction_magSq_le vel))
    · simp at hs
      subst hs
      exact friction_magSq_le vel
    · simp at hs
      rcases hs with hs | hs
      · subst hs
        exact friction_magSq_le vel
      · exact le_trans (ih _ _ _ _ hs) (friction_magSq_le vel)

/-- Helper: the recorded squared speeds along the trail are
non-increasing. -/
theorem predLoop_chain_speed (bd : Boundaries) (r : ℚ) :
    ∀ fuel pos vel k,
      List.Chain' (fun a b => b.speedSq ≤ a.speedSq) (predLoop bd r fuel pos vel k) := by
  intro fuel
  induction fuel with
  | zero => intro pos vel k; simp [predLoop]
  | succ n ih =>
    intro pos vel k
    simp only [predLoop]
    split_ifs with hb hhit hslow
    · simp
    · simp
    · refine List.chain'_cons'.mpr ⟨?_, ih _ _ _⟩
      intro y hy
      have hmem := List.mem_of_mem_head? hy
      have := predLoop_speed_mem bd r n _ _ _ _ hmem
      simpa using this
    · simp
    · refine List.chain'_cons'.mpr ⟨?_, ih _ _ _⟩
      intro y hy
      have hmem := List.mem_of_mem_head? hy
      have := predLoop_speed_mem bd r n _ _ _ _ hmem
      simpa using this

/-- C2: any prediction trail has at most maxPredictionSteps (300)
samples, every sample (in particular the last) records at most maxBounces
(5) bounces, and the bounce field is non-decreasing across consecutive
samples. -/
theorem prediction_invariants (enabled hasBody cueVisible : Bool)
    (startPos velocity : ℚ × ℚ) (bd : Boundaries) (r : ℚ) :
    (calculatePrediction enabled hasBody cueVisible startPos velocity bd r).length ≤ 300
  ∧ (∀ s ∈ calculatePrediction enabled hasBody cueVisible startPos velocity bd r,
      s.bounce ≤ 5)
  ∧ List.Chain' (fun a b => a.bounce ≤ b.bounce)
      (calculatePrediction enabled hasBody cueVisible startPos velocity bd r) := by
  unfold calculatePrediction
  split_ifs with h
  · simp
  · refine ⟨predLoop_length_le bd r 300 _ _ _, ?_, predLoop_chain_bounce bd r 300 _ _ _⟩
    intro s hs
    exact (predLoop_bounce_bounds bd r 300 _ _ _ s hs).2

/-- C2 witness: the trail of a concrete shot respects the step budget. -/
theorem prediction_invariants_witness :
    (calculatePrediction true true true (200, 150) (6, 0) ⟨0, 400, 0, 300⟩ 7).length
      ≤ 300 :=
  (prediction_invariants true true true (200, 150) (6, 0) ⟨0, 400, 0, 300⟩ 7).1

/-- C3: along any prediction trail the recorded speed never increases
between consecutive samples (stated both for the stored squared speed and
for the speed itself, its square root). -/
theorem prediction_speed_monotone (enabled hasBody cueVisible : Bool)
    (startPos velocity : ℚ × ℚ) (bd : Boundaries) (r : ℚ) :
    List.Chain' (fun a b => b.speedSq ≤ a.speedSq)
      (calculatePrediction enabled hasBody cueVisible startPos velocity bd r)
  ∧ List.Chain' (fun a b => Sample.speed b ≤ Sample.speed a)
      (calculatePrediction enabled hasBody cueVisible startPos velocity bd r) := by
  have hsq : List.Chain' (fun a b => b.speedSq ≤ a.speedSq)
      (calculatePrediction enabled hasBody cueVisible startPos velocity bd r) := by
    unfold calculatePrediction
    split_ifs with h
    · simp
    · exact predLoop_chain_speed bd r 300 _ _ _
  refine ⟨hsq, hsq.imp ?_⟩
  intro a b hab
  exact Real.sqrt_le_sqrt (by exact_mod_cast hab)

/-- C3 witness: the squared speeds of a concrete trail never increase. -/
theorem prediction_speed_monotone_witness :
    List.Chain' (fun a b => b.speedSq ≤ a.speedSq)
      (calculatePrediction true true true (200, 150) (6, 0) ⟨0, 400, 0, 300⟩ 7) :=
  (prediction_speed_monotone true true true (200, 150) (6, 0) ⟨0, 400, 0, 300⟩ 7).1

/-- C9: whenever the prediction system is disabled, the cue ball has no
body, or the cue is not visible, calculatePrediction returns the empty
trail (the stored trail is cleared, leaving no stale samples). -/
theorem guard_clears_trail (enabled hasBody cueVisible : Bool)
    (startPos velocity : ℚ × ℚ) (bd : Boundaries) (r : ℚ)
    (h : enabled = false ∨ hasBody = false ∨ cueVisible = false) :
    calculatePrediction enabled hasBody cueVisible startPos velocity bd r = [] := by
  rcases h with h | h | h <;> subst h <;> simp [calculatePrediction]

/-- C9 witness: the disabled system at a concrete input returns the empty
trail. -/
theorem guard_clears_trail_witness :
    calculatePrediction false true true (200, 150) (6, 0) ⟨0, 400, 0, 300⟩ 7 = [] :=
  guard_clears_trail false true true (200, 150) (6, 0) ⟨0, 400, 0, 300⟩ 7 (Or.inl rfl)

/-- Helper: for ages within the lifetime the phase chain ignores the
previous phase (the final else is only reached past maxAge). -/
theorem updateObstaclePhase_indep (age : ℕ) (h : age ≤ 480) (p q : ObstaclePhase) :
    updateObstaclePhase age p = updateObstaclePhase age q := by
  unfold updateObstaclePhase
  split_ifs with h1 h2 <;> rfl

/-- Helper: full characterization of the obstacle lifecycle trace: for the
first 480 ticks the state is (age, phase of that age); afterwards the
obstacle has been removed. -/
theorem obstacleRun_eq (n : ℕ) :
    obstacleRun n = if n ≤ 480 then some (n, phaseOfAge n) else none := by
  induction n with
  | zero => simp [obstacleRun, phaseOfAge, updateObstaclePhase]
  | succ n ih =>
    rw [obstacleRun, ih]
    by_cases h : n ≤ 480
    · rw [if_pos h]
      simp only [Option.some_bind, obstacleTick]
      by_cases h2 : n + 1 ≤ 480
      · rw [if_neg (by omega), if_pos h2]
        have : updateObstaclePhase (n + 1) (phaseOfAge n) = phaseOfAge (n + 1) :=
          updateObstaclePhase_indep (n + 1) h2 (phaseOfAge n) .warning
        rw [this]
      · rw [if_pos (by omega), if_neg h2]
    · rw [if_neg h, if_neg (by omega)]
      simp

/-- Helper: lifecycle rank of the observed phase as a function of age. -/
theorem lifeRank_observed (n : ℕ) :
    lifeRank (observedPhase n) =
      if n ≤ 120 then 0 else if n ≤ 420 then 1 else if n ≤ 480 then 2 else 3 := by
  simp only [observedPhase, obstacleRun_eq]
  by_cases h1 : n ≤ 120
  · rw [if_pos (by omega), if_pos h1]
    simp [phaseOfAge, updateObstaclePhase, h1, lifeRank]
  · by_cases h2 : n ≤ 420
    · rw [if_pos (by omega), if_neg h1, if_pos h2]
      simp [phaseOfAge, updateObstaclePhase, h1, h2, lifeRank]
    · by_cases h3 : n ≤ 480
      · rw [if_pos h3, if_neg h1, if_neg h2, if_pos h3]
        simp [phaseOfAge, updateObstaclePhase, h1, h2, h3, lifeRank]
      · rw [if_neg h3, if_neg h1, if_neg h2, if_neg h3]
        simp [lifeRank]

/-- C5: an obstacle observed across update ticks follows the strictly
linear sequence warning, active, fading, removed, driven solely by the
age thresholds 120 (warningTime), 420 (warningTime + activeTime) and 480
(maxAge): the trace is fully determined by the age, its lifecycle rank
never decreases, and no stage is ever skipped (each tick advances the
rank by at most one), so no phase repeats after leaving it or reverses. -/
theorem obstacle_phase_linear :
    (∀ n, obstacleRun n = if n ≤ 480 then some (n, phaseOfAge n) else none)
  ∧ (∀ n, observedPhase n =
      if n ≤ 120 then some .warning
      else if n ≤ 420 then some .active
      else if n ≤ 480 then some .fading
      else none)
  ∧ (∀ m n, m ≤ n → lifeRank (observedPhase m) ≤ lifeRank (observedPhase n))
  ∧ (∀ n, lifeRank (observedPhase (n + 1)) ≤ lifeRank (observedPhase n) + 1) := by
  refine ⟨obstacleRun_eq, ?_, ?_, ?_⟩
  · intro n
    simp only [observedPhase, obstacleRun_eq]
    by_cases h1 : n ≤ 120
    · rw [if_pos (by omega), if_pos h1]
      simp [phaseOfAge, updateObstaclePhase, h1]
    · by_cases h2 : n ≤ 420
      · rw [if_pos (by omega), if_neg h1, if_pos h2]
        simp [phaseOfAge, updateObstaclePhase, h1, h2]
      · by_cases h3 : n ≤ 480
        · rw [if_pos h3, if_neg h1, if_neg h2, if_pos h3]
          simp [phaseOfAge, updateObstaclePhase, h1, h2, h3]
        · rw [if_neg h3, if_neg h1, if_neg h2, if_neg h3]
          simp
  · intro m n h
    rw [lifeRank_observed, lifeRank_observed]
    split_ifs <;> omega
  · intro n
    rw [lifeRank_observed (n + 1), lifeRank_observed n]
    split_ifs <;> omega

/-- C5 witness: concrete observations of the trace: the rank at tick 100
(warning) is at most the rank at tick 450 (fading). -/
theorem obstacle_phase_linear_witness :
    lifeRank (observedPhase 100) ≤ lifeRank (observedPhase 450) :=
  obstacle_phase_linear.2.2.1 100 450 (by norm_num)

/-- Helper: when every candidate the random stream can produce is
rejected, the bounded retry loop exhausts its fuel and returns none. -/
theorem spawnGo_none (env : SpawnEnv) (obstaclePositions : List (ℚ × ℚ))
    (rand : ℕ → ℚ × ℚ)
    (hall : ∀ i, isValidSpawn env obstaclePositions
        (spawnCandidate env.bd (rand i)).1 (spawnCandidate env.bd (rand i)).2 = false) :
    ∀ fuel i, spawnGo env obstaclePositions rand fuel i = none := by
  intro fuel
  induction fuel with
  | zero => intro i; rfl
  | succ n ih =>
    intro i
    simp only [spawnGo, hall i, Bool.false_eq_true, if_false]
    exact ih (i + 1)

/-- C8: when no candidate position is valid, findSafeSpawnPosition
returns none within its fixed 50-attempt budget (the loop is bounded by
construction); the failure raises no error and changes no state
(spawnRandomObstacle leaves the obstacle list untouched), and update
still resets the spawn timer, so the spawn is retried at the next timer
expiry. -/
theorem spawn_search_exhaustion (env : SpawnEnv) (rand : ℕ → ℚ × ℚ) (s : ObstSystem)
    (hall : ∀ i, isValidSpawn env (s.obstacles.map fun o => (o.x, o.y))
        (spawnCandidate env.bd (rand i)).1 (spawnCandidate env.bd (rand i)).2 = false) :
    findSafeSpawnPosition env (s.obstacles.map fun o => (o.x, o.y)) rand = none
  ∧ spawnRandomObstacle env rand s.obstacles = s.obstacles
  ∧ (420 ≤ s.spawnTimer + 1 → s.obstacles.length < 2 →
      update env rand true false s = ⟨updateObstacles s.obstacles, 0⟩) := by
  have hnone : findSafeSpawnPosition env (s.obstacles.map fun o => (o.x, o.y)) rand = none :=
    spawnGo_none env _ rand hall 50 0
  have hspawn : spawnRandomObstacle env rand s.obstacles = s.obstacles := by
    unfold spawnRandomObstacle
    rw [hnone]
  refine ⟨hnone, hspawn, ?_⟩
  intro ht hlen
  unfold update
  rw [if_neg (by simp), if_pos ⟨ht, hlen, rfl⟩, hspawn]

/-- C8 witness: with the whole table inside the D zone every candidate is
rejected and the search returns none for a concrete container state. -/
theorem spawn_search_exhaustion_witness :
    findSafeSpawnPosition ⟨⟨0, 400, 0, 300⟩, [], fun _ _ => true, []⟩
      ((⟨[], 419⟩ : ObstSystem).obstacles.map fun o => (o.x, o.y))
      (fun _ => (0, 0)) = none :=
  (spawn_search_exhaustion ⟨⟨0, 400, 0, 300⟩, [], fun _ _ => true, []⟩
    (fun _ => (0, 0)) ⟨[], 419⟩ (fun _ => rfl)).1

/-- Helper: any candidate built from a unit random sample lies within 80
units of inset on every side, for a table wide enough to contain the
inset range. -/
theorem spawnCandidate_bounds (bd : Boundaries) (u : ℚ × ℚ)
    (hu1 : 0 ≤ u.1) (hu2 : u.1 < 1) (hv1 : 0 ≤ u.2) (hv2 : u.2 < 1)
    (hx : bd.left + 80 ≤ bd.right - 80) (hy : bd.top + 80 ≤ bd.bottom - 80) :
    bd.left + 80 ≤ (spawnCandidate bd u).1 ∧ (spawnCandidate bd u).1 ≤ bd.right - 80 ∧
    bd.top + 80 ≤ (spawnCandidate bd u).2 ∧ (spawnCandidate bd u).2 ≤ bd.bottom - 80 := by
  unfold spawnCandidate
  dsimp only
  have hx2 : (0 : ℚ) ≤ bd.right - 80 - (bd.left + 80) := by linarith
  have hy2 : (0 : ℚ) ≤ bd.bottom - 80 - (bd.top + 80) := by linarith
  have p1 : 0 ≤ u.1 * (bd.right - 80 - (bd.left + 80)) := mul_nonneg hu1 hx2
  have p2 : u.1 * (bd.right - 80 - (bd.left + 80)) ≤ bd.right - 80 - (bd.left + 80) := by
    nlinarith [mul_nonneg (by linarith : (0 : ℚ) ≤ 1 - u.1) hx2]
  have p3 : 0 ≤ u.2 * (bd.bottom - 80 - (bd.top + 80)) := mul_nonneg hv1 hy2
  have p4 : u.2 * (bd.bottom - 80 - (bd.top + 80)) ≤ bd.bottom - 80 - (bd.top + 80) := by
    nlinarith [mul_nonneg (by linarith : (0 : ℚ) ≤ 1 - u.2) hy2]
  refine ⟨by linarith, by linarith, by linarith, by linarith⟩

/-- Helper: a successful bounded search returns one of the generated
candidates. -/
theorem spawnGo_some (env : SpawnEnv) (obstaclePositions : List (ℚ × ℚ))
    (rand : ℕ → ℚ × ℚ) :
    ∀ fuel i p, spawnGo env obstaclePositions rand fuel i = some p →
      ∃ j, p = spawnCandidate env.bd (rand j) := by
  intro fuel
  induction fuel with
  | zero => intro i p h; exact absurd h (by simp [spawnGo])
  | succ n ih =>
    intro i p h
    simp only [spawnGo] at h
    split_ifs at h with hv
    · exact ⟨i, (Option.some_inj.mp h).symm⟩
    · exact ih (i + 1) p h

/-- C10: every position accepted by findSafeSpawnPosition lies in
[left + 80, right - 80] x [top + 80, bottom - 80]; an update tick never
moves an obstacle's center; hence the at-least-80-inside property of all
obstacles in the container is preserved by every update. -/
theorem spawn_position_bounds (env : SpawnEnv) (rand : ℕ → ℚ × ℚ)
    (hrand : ∀ i, 0 ≤ (rand i).1 ∧ (rand i).1 < 1 ∧ 0 ≤ (rand i).2 ∧ (rand i).2 < 1)
    (hx : env.bd.left + 80 ≤ env.bd.right - 80)
    (hy : env.bd.top + 80 ≤ env.bd.bottom - 80) :
    (∀ obstaclePositions p,
        findSafeSpawnPosition env obstaclePositions rand = some p →
          env.bd.left + 80 ≤ p.1 ∧ p.1 ≤ env.bd.right - 80 ∧
          env.bd.top + 80 ≤ p.2 ∧ p.2 ≤ env.bd.bottom - 80)
  ∧ (∀ o : Obst, (tickObstacle o).x = o.x ∧ (tickObstacle o).y = o.y)
  ∧ (∀ enabled ballsMoving s, (∀ o ∈ s.obstacles, obstInBounds env.bd o) →
        ∀ o ∈ (update env rand enabled ballsMoving s).obstacles, obstInBounds env.bd o) := by
  have hfind : ∀ obstaclePositions p,
      findSafeSpawnPosition env obstaclePositions rand = some p →
        env.bd.left + 80 ≤ p.1 ∧ p.1 ≤ env.bd.right - 80 ∧
        env.bd.top + 80 ≤ p.2 ∧ p.2 ≤ env.bd.bottom - 80 := by
    intro obstaclePositions p h
    obtain ⟨j, hj⟩ := spawnGo_some env obstaclePositions rand 50 0 p h
    subst hj
    exact spawnCandidate_bounds env.bd (rand j) (hrand j).1 (hrand j).2.1
      (hrand j).2.2.1 (hrand j).2.2.2 hx hy
  have htick : ∀ o : Obst, (tickObstacle o).x = o.x ∧ (tickObstacle o).y = o.y := by
    intro o; exact ⟨rfl, rfl⟩
  have hupd : ∀ l, (∀ o ∈ l, obstInBounds env.bd o) →
      ∀ o ∈ updateObstacles l, obstInBounds env.bd o := by
    intro l hl o ho
    simp only [updateObstacles, List.mem_filter, List.mem_map] at ho
    obtain ⟨⟨o0, ho0, rfl⟩, _⟩ := ho
    exact hl o0 ho0
  have hspawnl : ∀ l, (∀ o ∈ l, obstInBounds env.bd o) →
      ∀ o ∈ spawnRandomObstacle env rand l, obstInBounds env.bd o := by
    intro l hl o ho
    unfold spawnRandomObstacle at ho
    rcases hfs : findSafeSpawnPosition env (l.map fun o => (o.x, o.y)) rand with _ | p
    · rw [hfs] at ho
      exact hl o ho
    · rw [hfs] at ho
      rcases List.mem_append.mp ho with h | h
      · exact hl o h
      · rcases List.mem_singleton.mp h with rfl
        obtain ⟨b1, b2, b3, b4⟩ := hfind _ p hfs
        exact ⟨b1, b2, b3, b4⟩
  refine ⟨hfind, htick, ?_⟩
  intro enabled ballsMoving s hs o ho
  simp only [update] at ho
  split_ifs at ho with he hc
  · exact hs o ho
  · exact hupd _ (hspawnl _ hs) o ho
  · exact hupd _ hs o ho

/-- C10 witness: with an open table and a constant unit sample 1/2 the
search accepts (200, 150), which is 80 inside every boundary. -/
theorem spawn_position_bounds_witness :
    (⟨⟨0, 400, 0, 300⟩, [], fun _ _ => false, []⟩ : SpawnEnv).bd.left + 80 ≤
        ((200 : ℚ), (150 : ℚ)).1 ∧
      ((200 : ℚ), (150 : ℚ)).1 ≤
        (⟨⟨0, 400, 0, 300⟩, [], fun _ _ => false, []⟩ : SpawnEnv).bd.right - 80 ∧
      (⟨⟨0, 400, 0, 300⟩, [], fun _ _ => false, []⟩ : SpawnEnv).bd.top + 80 ≤
        ((200 : ℚ), (150 : ℚ)).2 ∧
      ((200 : ℚ), (150 : ℚ)).2 ≤
        (⟨⟨0, 400, 0, 300⟩, [], fun _ _ => false, []⟩ : SpawnEnv).bd.bottom - 80 :=
  (spawn_position_bounds ⟨⟨0, 400, 0, 300⟩, [], fun _ _ => false, []⟩
      (fun _ => (1 / 2, 1 / 2))
      (fun _ => by norm_num)
      (by norm_num) (by norm_num)).1
    [] (200, 150) (by
      show spawnGo _ _ _ 50 0 = some (200, 150)
      rw [show (50 : ℕ) = 49 + 1 by norm_num]
      simp only [spawnGo, spawnCandidate, isValidSpawn]
      norm_num)

/-- Helper: the emergency teleport always lands the ball exactly 40 units
from the obstacle center (cos^2 + sin^2 = 1, whatever the escape angle). -/
theorem emergency_dist (ox oy bx bY : ℝ) :
    distF ox oy (emergencyPushBall ox oy bx bY).1.1 (emergencyPushBall ox oy bx bY).1.2
      = 40 := by
  unfold emergencyPushBall distF
  dsimp only
  have hs : Real.sin (atan2R (bY - oy) (bx - ox)) ^ 2 +
      Real.cos (atan2R (bY - oy) (bx - ox)) ^ 2 = 1 :=
    Real.sin_sq_add_cos_sq _
  have hkey : (ox + Real.cos (atan2R (bY - oy) (bx - ox)) * 40 - ox) ^ 2 +
      (oy + Real.sin (atan2R (bY - oy) (bx - ox)) * 40 - oy) ^ 2 = 1600 := by
    linear_combination (1600 : ℝ) * hs
  rw [hkey, show (1600 : ℝ) = 40 ^ 2 by norm_num,
    Real.sqrt_sq (by norm_num : (0 : ℝ) ≤ 40)]

/-- Helper: at a strictly positive distance below the emergency radius,
the force-application pass resolves to the emergency teleport branch. -/
theorem interactStep_emergency (ox oy rot bx bY vx vy : ℝ)
    (h0 : 0 < distF ox oy bx bY) (h1 : distF ox oy bx bY < 25) :
    interactStep ox oy rot bx bY vx vy = emergencyPushBall ox oy bx bY := by
  simp only [interactStep]
  rw [if_pos ⟨h1, h0⟩]

/-- Helper: concrete distance evaluation used by the witnesses. -/
theorem distF_ten : distF 0 0 10 0 = 10 := by
  unfold distF
  rw [show ((10 : ℝ) - 0) ^ 2 + ((0 : ℝ) - 0) ^ 2 = 10 ^ 2 by norm_num,
    Real.sqrt_sq (by norm_num : (0 : ℝ) ≤ 10)]

/-- C6 counterexample: a body at distance exactly the emergency radius
(25) from an active obstacle's center is NOT moved to the safe escape
distance by the force-application pass: only the gradual push fires
(velocity-only), so the body's distance after the pass is still 25, not
40. -/
theorem emergency_radius_boundary_counterexample :
    distF 0 0 25 0 = 25
  ∧ distF 0 0 ((interactStep 0 0 0 25 0 0 0).1).1 ((interactStep 0 0 0 25 0 0 0).1).2 = 25
  ∧ (25 : ℝ) ≠ 40 := by
  have hd : distF 0 0 25 0 = 25 := by
    unfold distF
    rw [show ((25 : ℝ) - 0) ^ 2 + ((0 : ℝ) - 0) ^ 2 = 25 ^ 2 by norm_num,
      Real.sqrt_sq (by norm_num : (0 : ℝ) ≤ 25)]
  have hpos : (interactStep 0 0 0 25 0 0 0).1 = (25, 0) := by
    simp only [interactStep]
    rw [if_neg (by rw [hd]; norm_num)]
  refine ⟨hd, ?_, by norm_num⟩
  rw [hpos]
  exact hd

/-- C6 amended: a body strictly inside the emergency radius (distance
strictly between 0 and 25) from an active obstacle's center is left by
the force-application pass at distance exactly the safe escape distance
(40) from the obstacle center; the pass treats each listed ball this
way. -/
theorem emergency_escape_distance (ox oy rot bx bY vx vy : ℝ)
    (h0 : 0 < distF ox oy bx bY) (h1 : distF ox oy bx bY < 25) :
    distF ox oy ((interactStep ox oy rot bx bY vx vy).1).1
        ((interactStep ox oy rot bx bY vx vy).1).2 = 40
  ∧ handleBallInteractions ox oy rot [((bx, bY), (vx, vy))] =
      [interactStep ox oy rot bx bY vx vy] := by
  refine ⟨?_, rfl⟩
  rw [interactStep_emergency ox oy rot bx bY vx vy h0 h1]
  exact emergency_dist ox oy bx bY

/-- C6 amended witness: a concrete ball 10 units from the obstacle ends
exactly 40 units away. -/
theorem emergency_escape_distance_witness :
    distF 0 0 ((interactStep 0 0 0 10 0 0 0).1).1 ((interactStep 0 0 0 10 0 0 0).1).2
      = 40 :=
  (emergency_escape_distance 0 0 0 10 0 0 0
    (by rw [distF_ten]; norm_num) (by rw [distF_ten]; norm_num)).1

/-- C7 counterexample: a body at distance exactly zero from an active
obstacle's center is not handled by the emergency-teleport branch: the
guard `distance > 0` excludes it, the pass leaves position and velocity
unchanged, and the body does not end at the safe escape distance. -/
theorem zero_distance_counterexample :
    distF 0 0 0 0 = 0
  ∧ interactStep 0 0 0 0 0 1 2 = ((0, 0), (1, 2))
  ∧ distF 0 0 ((interactStep 0 0 0 0 0 1 2).1).1 ((interactStep 0 0 0 0 0 1 2).1).2
      ≠ 40 := by
  have hd : distF 0 0 0 0 = 0 := by
    unfold distF
    norm_num
  have hstep : interactStep 0 0 0 0 0 1 2 = ((0, 0), (1, 2)) := by
    simp only [interactStep]
    rw [if_neg (by rw [hd]; norm_num), if_neg (by rw [hd]; norm_num)]
  refine ⟨hd, hstep, ?_⟩
  rw [hstep]
  rw [show ((0, 0), (1, 2)).1 = ((0 : ℝ), (0 : ℝ)) from rfl]
  dsimp only
  rw [hd]
  norm_num

/-- C7 amended: totality and branch selection of the force-application
pass near the obstacle center: at any strictly positive distance below
the emergency radius the ball is handled by the emergency-teleport branch
(repositioned along the repulsion direction), while at distance exactly
zero both branches are skipped and the ball is returned unchanged -- in
either case the computation is defined (no division-by-zero fault), for
every non-negative distance including exactly zero. -/
theorem zero_distance_guard (ox oy rot bx bY vx vy : ℝ) :
    (0 < distF ox oy bx bY → distF ox oy bx bY < 25 →
      interactStep ox oy rot bx bY vx vy = emergencyPushBall ox oy bx bY)
  ∧ (distF ox oy bx bY = 0 →
      interactStep ox oy rot bx bY vx vy = ((bx, bY), (vx, vy))) := by
  constructor
  · intro h0 h1
    exact interactStep_emergency ox oy rot bx bY vx vy h0 h1
  · intro h
    simp only [interactStep]
    rw [if_neg (by rw [h]; norm_num), if_neg (by rw [h]; norm_num)]

/-- C7 amended witness: a concrete ball 10 units from the obstacle is
routed through the emergency-teleport branch. -/
theorem zero_distance_guard_witness :
    interactStep 0 0 0 10 0 1 2 = emergencyPushBall 0 0 10 0 :=
  (zero_distance_guard 0 0 0 10 0 1 2).1
    (by rw [distF_ten]; norm_num) (by rw [distF_ten]; norm_num)

end Snooker
